import Mathlib

/-!
Verification of the grade-tonnage dashboard core
(DARPA-CRITICALMAAS/ta2-minmod-dashboard).

Shallow embedding of:
* `src/components/cards/gt_model.py` — `greedy_weighted_avg_aggregation`
  and the per-group aggregation loop plus guide-curve generation of
  `get_gt_model`;
* `src/pages/gtmodel.py` — the CSV-export text clean-up in `download_csv`;
* `src/models/geo.py` — the record clean-up `GeoMineral.clean_and_fix`.

Python floats are modelled as rationals (`ℚ`); a Python `dict` is an
association list in insertion order; `dict.get(k)` is `List.lookup`;
a raised exception is `Option.none` threaded through callers.
-/

namespace MinmodDashboard

/-- One row of `gt.df` as consumed by `greedy_weighted_avg_aggregation`
(the columns the aggregator reads: `ms`, `ms_name`, `commodity`,
`top1_deposit_name`, `lat`, `lon`, `total_tonnage`, `total_grade`).
`lat`/`lon` may be null in the source, hence `Option ℚ`. -/
structure SiteRow where
  ms : String
  ms_name : String
  commodity : String
  top1_deposit_name : String
  lat : Option ℚ
  lon : Option ℚ
  total_tonnage : ℚ
  total_grade : ℚ
deriving DecidableEq, Repr

/-- A pandas dataframe with its index: a list of (index, row) pairs. -/
abbrev DataFrame := List (ℕ × SiteRow)

/-- `gt.distance_caches`: a Python dict from an index pair to a distance,
kept in insertion order. -/
abbrev DistCache := List ((ℕ × ℕ) × ℚ)

/-- `set(df.index)` of gt_model.py line 29. -/
def valid_indices (df : DataFrame) : List ℕ := df.map Prod.fst

/-- Insert one distance entry into a list sorted ascending by value,
after all entries of equal value (so the overall sort is stable, as
Python's `sorted` is). -/
def insertByVal (x : (ℕ × ℕ) × ℚ) : DistCache → DistCache
  | [] => [x]
  | y :: ys => if x.2 < y.2 then x :: y :: ys else y :: insertByVal x ys

/-- `sorted(distances.items(), key=lambda x: x[1])` of gt_model.py line 32:
stable sort of the cache entries by distance value. -/
def sortByVal : DistCache → DistCache
  | [] => []
  | x :: xs => insertByVal x (sortByVal xs)

/-- gt_model.py lines 35-40: flatten the sorted pairs into row indices and
keep those present in the dataframe index. -/
def sorted_row_indices (df : DataFrame) (distances : DistCache) : List ℕ :=
  ((sortByVal distances).flatMap (fun kv => [kv.1.1, kv.1.2])).filter
    (fun i => decide (i ∈ valid_indices df))

/-- gt_model.py lines 52-62, the inner scan of one cluster seeded at `i`:
walk `js` (= the full sorted row index list); a candidate `j` is appended
to `group` and to `processed` when `i != j`, `j` is unassigned, the cache
lookup of the pair `(i, j)` (this exact order) returns a value `< thr`,
and `j` is a dataframe index.  A `None` stored value and an absent key
both surface as `none` from the dict lookup, exactly as Python's
`dict.get` returns `None` for both. -/
def innerLoop (distances : DistCache) (thr : ℚ) (valid : List ℕ) (i : ℕ) :
    List ℕ → List ℕ → List ℕ → List ℕ × List ℕ
  | [], group, processed => (group, processed)
  | j :: js, group, processed =>
    if i ≠ j ∧ j ∉ processed then
      match List.lookup (i, j) distances with
      | some d =>
        if d < thr ∧ j ∈ valid then
          innerLoop distances thr valid i js (group ++ [j]) (processed ++ [j])
        else
          innerLoop distances thr valid i js group processed
      | none => innerLoop distances thr valid i js group processed
    else
      innerLoop distances thr valid i js group processed

/-- gt_model.py lines 43-69, the outer loop over sorted row indices:
skip assigned seeds, open a cluster `[i]`, run the inner scan over the
full index list `sri`, re-validate the group against the dataframe
index, and keep non-empty groups in production order. -/
def outerLoop (distances : DistCache) (thr : ℚ) (valid : List ℕ) (sri : List ℕ) :
    List ℕ → List ℕ → List (List ℕ) → List (List ℕ) × List ℕ
  | [], processed, acc => (acc, processed)
  | i :: is, processed, acc =>
    if i ∈ processed then
      outerLoop distances thr valid sri is processed acc
    else
      let r := innerLoop distances thr valid i sri [i] (processed ++ [i])
      let group := r.1.filter (fun idx => decide (idx ∈ valid))
      if group.isEmpty then
        outerLoop distances thr valid sri is r.2 acc
      else
        outerLoop distances thr valid sri is r.2 (acc ++ [group])

/-- The member-index lists of the clusters built by
`greedy_weighted_avg_aggregation` (gt_model.py lines 24-69), in
production order. -/
def greedyClusters (df : DataFrame) (distances : DistCache) (thr : ℚ) :
    List (List ℕ) :=
  (outerLoop distances thr (valid_indices df) (sorted_row_indices df distances)
    (sorted_row_indices df distances) [] []).1

/-- `numpy.average(values, weights)`: the weighted mean
`sum(v*w) / sum(w)`; numpy raises `ZeroDivisionError` when the weights
sum to zero, modelled as `none`. -/
def npAverage (values weights : List ℚ) : Option ℚ :=
  if weights.sum = 0 then none
  else some ((List.zipWith (fun v w => v * w) values weights).sum / weights.sum)

/-- `":: ".join(strings)` of Python: the elements separated by the
three-character separator `":: "`. -/
def joinSep (sep : String) : List String → String
  | [] => ""
  | [s] => s
  | s :: rest => s ++ sep ++ joinSep sep rest

/-- gt_model.py lines 81-90: the combined `ms_name` / `ms` field of one
cluster: `":: " + ":: ".join(values)` when the cluster has more than one
member, else `":: ".join(values)` (the bare value for a singleton). -/
def combineField (names : List String) : String :=
  if names.length > 1 then ":: " ++ joinSep ":: " names
  else joinSep ":: " names

/-- gt_model.py lines 72-110: turn one cluster into its aggregated output
row.  `df.loc[group, col]` is the lookup of every group index in the
dataframe; `group[0]` supplies the representative fields.  A `none`
result models the `ZeroDivisionError` escaping from `np.average`. -/
def mkRow (df : DataFrame) (group : List ℕ) : Option SiteRow :=
  (group.mapM (fun idx => List.lookup idx df)).bind (fun recs =>
    match npAverage (recs.map (fun r => r.total_grade))
        (recs.map (fun r => r.total_tonnage)), recs with
    | some wg, r0 :: _ =>
      some ⟨combineField (recs.map (fun r => r.ms)),
            combineField (recs.map (fun r => r.ms_name)),
            r0.commodity, r0.top1_deposit_name, r0.lat, r0.lon,
            (recs.map (fun r => r.total_tonnage)).sum, wg⟩
    | _, _ => none)

/-- Rows of the clusters in production order; the first failing cluster
aborts the whole computation, like the uncaught exception does in the
Python loop (which discards all partial output). -/
def buildRows (df : DataFrame) : List (List ℕ) → Option (List SiteRow)
  | [] => some []
  | c :: cs =>
    match mkRow df c with
    | none => none
    | some row =>
      match buildRows df cs with
      | none => none
      | some rows => some (row :: rows)

/-- `greedy_weighted_avg_aggregation(df, distances, proximity_threshold)`
(gt_model.py lines 24-112): the aggregated dataframe, or `none` when the
computation raises. -/
def greedy_weighted_avg_aggregation (df : DataFrame) (distances : DistCache)
    (thr : ℚ) : Option (List SiteRow) :=
  buildRows df (greedyClusters df distances thr)

/-- gt_model.py lines 138-140: move `"Unknown"` to the end of the ranked
label list when present. -/
def ensureUnknownLast (labels : List String) : List String :=
  if "Unknown" ∈ labels then labels.erase "Unknown" ++ ["Unknown"] else labels

/-- gt_model.py lines 150-160, the per-deposit-type loop of
`get_gt_model`: filter the dataframe to the group; with a non-zero
proximity value the `"Unknown"` group is skipped entirely (`continue`)
and every other group is aggregated; with proximity 0 the filtered rows
pass through unchanged.  The output collects `(label, rows)` in loop
order; `none` models an exception escaping the loop. -/
def aggLoop (df : DataFrame) (distances : DistCache) (pv : ℚ) :
    List String → Option (List (String × List SiteRow))
  | [] => some []
  | d :: ds =>
    if pv ≠ 0 then
      if d = "Unknown" then aggLoop df distances pv ds
      else
        match greedy_weighted_avg_aggregation
            (df.filter (fun r => decide (r.2.top1_deposit_name = d))) distances pv with
        | none => none
        | some rows => (aggLoop df distances pv ds).map (fun rest => (d, rows) :: rest)
    else
      (aggLoop df distances pv ds).map
        (fun rest =>
          (d, (df.filter (fun r => decide (r.2.top1_deposit_name = d))).map Prod.snd)
            :: rest)

/-- The `gt.aggregated_df` contents produced by `get_gt_model` for a
ranked label list: ranking puts `"Unknown"` last, then the per-group
loop runs. -/
def get_gt_model_core (df : DataFrame) (distances : DistCache)
    (labels : List String) (pv : ℚ) : Option (List (String × List SiteRow)) :=
  aggLoop df distances pv (ensureUnknownLast labels)

/-- Does `pat` start the character list `s`? -/
def startsWith : List Char → List Char → Bool
  | [], _ => true
  | _ :: _, [] => false
  | p :: ps, c :: cs => p == c && startsWith ps cs

/-- Python's `pat in s` substring test over character lists. -/
def containsSub (pat : List Char) : List Char → Bool
  | [] => startsWith pat []
  | c :: rest => startsWith pat (c :: rest) || containsSub pat rest

/-- Python's `s.replace("::", rep)` over character lists, specialised to
the two-character pattern `"::"` the source uses: scan left to right,
replacing non-overlapping occurrences of `"::"` by `rep`. -/
def replaceColons (rep : List Char) : List Char → List Char
  | [] => []
  | [c] => [c]
  | c1 :: c2 :: rest =>
    if c1 = ':' ∧ c2 = ':' then rep ++ replaceColons rep rest
    else c1 :: replaceColons rep (c2 :: rest)

/-- Python's `s.count("::")`: the number of non-overlapping occurrences
of `"::"`, scanned left to right. -/
def countColons : List Char → ℕ
  | [] => 0
  | [_] => 0
  | c1 :: c2 :: rest =>
    if c1 = ':' ∧ c2 = ':' then 1 + countColons rest
    else countColons (c2 :: rest)

/-- gtmodel.py lines 459-464 (`download_csv`): the clean-up applied to
the `ms_name` and `ms` columns before export —
`x[2:].replace("::", ",") if "::" in x else x`. -/
def csvClean (x : String) : String :=
  if containsSub (String.data "::") x.data then
    ⟨replaceColons (String.data ",") (x.data.drop 2)⟩
  else x

/-- Modelled from the spec for comparison (export contract, spec §6):
the concatenation field "stripped of their leading two characters and
internal `::` separators rewritten to `, `".  Taken literally: drop the
first two characters, then replace every occurrence of the two-character
string `::` by `", "`. -/
def specCsvClean (x : String) : String :=
  ⟨replaceColons (String.data ", ") (x.data.drop 2)⟩

/-! ### geo.py: `GeoMineral.clean_and_fix` -/

/-- One entry of `data["deposit_types"]`. -/
structure DepositTypeCand where
  id : String
  confidence : ℚ
  source : String
deriving DecidableEq, Repr

/-- One entry of the deposit-type reference dictionary
(`self.data_cache["deposit-types"]`). -/
structure DepositDetails where
  name : String
  group : String
  environment : String
deriving DecidableEq, Repr

/-- The grade-tonnage numbers of `data["grade_tonnage"][0]` when the
`"total_grade"` key is present; each value may still be JSON null. -/
structure GTVals where
  total_grade : Option ℚ
  total_tonnage : Option ℚ
  total_contained_metal : Option ℚ
deriving DecidableEq, Repr

/-- `data["grade_tonnage"][0]`: the commodity plus, when the
`"total_grade"` key exists, the grade-tonnage values. -/
structure GTEntry where
  commodity : String
  vals : Option GTVals
deriving DecidableEq, Repr

/-- One raw dedup-mineral-site payload, restricted to the fields
`clean_and_fix` uses for the grade-tonnage invariant (location and
rank/type handling carry over unchanged and are omitted).  `gt0` is
`data["grade_tonnage"][0]`. -/
structure RawSite where
  id : String
  name : String
  deposit_types : List DepositTypeCand
  gt0 : GTEntry
deriving DecidableEq, Repr

/-- The cleaned record fields relevant to the Unknown-group invariant. -/
structure CleanedRow where
  ms : String
  ms_name : String
  commodity : String
  top1_deposit_name : String
  total_grade : Option ℚ
  total_tonnage : Option ℚ
  total_contained_metal : Option ℚ
deriving DecidableEq, Repr

/-- Python truthiness test of `combined_data.get(key)` for a number:
`None` (key absent or null) and `0`/`0.0` are falsy. -/
def falsyOpt : Option ℚ → Bool
  | none => true
  | some q => q == 0

/-- Python's `max(cands, key=lambda x: x["confidence"])`: the first
candidate of maximal confidence (later candidates replace the current
maximum only when strictly greater). -/
def maxByConfidence (l : List DepositTypeCand) : Option DepositTypeCand :=
  l.foldl
    (fun acc x =>
      match acc with
      | none => some x
      | some m => if m.confidence < x.confidence then some x else some m)
    none

/-- geo.py lines 45-126, one iteration of `clean_and_fix`: skip sites
with no deposit types, pick the highest-confidence deposit type, skip
sites whose deposit type is not in the reference dictionary, copy the
grade-tonnage values when present, and force `top1_deposit_name` to
`"Unknown"` when the tonnage or the grade is missing or falsy
(lines 120-124). -/
def cleanRecord (depositCache : String → Option DepositDetails)
    (data : RawSite) : Option CleanedRow :=
  if data.deposit_types.isEmpty then none
  else
    (maxByConfidence data.deposit_types).bind (fun top =>
      (depositCache top.id).bind (fun dd =>
        some ⟨"/derived/" ++ data.id, data.name, data.gt0.commodity,
          if falsyOpt (data.gt0.vals.bind (fun v => v.total_tonnage))
              || falsyOpt (data.gt0.vals.bind (fun v => v.total_grade))
            then "Unknown" else dd.name,
          data.gt0.vals.bind (fun v => v.total_grade),
          data.gt0.vals.bind (fun v => v.total_tonnage),
          data.gt0.vals.bind (fun v => v.total_contained_metal)⟩))

/-- `clean_and_fix` over the whole payload list: kept records in input
order. -/
def clean_and_fix (depositCache : String → Option DepositDetails)
    (raws : List RawSite) : List CleanedRow :=
  raws.filterMap (cleanRecord depositCache)

/-! ### Guide curves (gt_model.py lines 202-207)

`np.logspace(start, stop, num)` is `10 ** np.linspace(start, stop, num)`
with `linspace` placing `num` points from `start` to `stop` inclusive. -/

/-- The `i`-th element of `np.logspace(start, stop, num)`:
`10 ** (start + (stop - start) * i / (num - 1))`. -/
noncomputable def np_logspace (start stop : ℝ) (num : ℕ) (i : ℕ) : ℝ :=
  (10 : ℝ) ^ (start + (stop - start) * (i : ℝ) / ((num : ℝ) - 1))

/-- `metal_contents = np.logspace(-9, 10, num=20)` (line 202). -/
noncomputable def metal_contents : List ℝ :=
  List.ofFn (fun i : Fin 20 => np_logspace (-9) 10 20 (i : ℕ))

/-- `tonnage_range = np.logspace(-8, 8, 100)` (line 205). -/
noncomputable def tonnage_range : List ℝ :=
  List.ofFn (fun j : Fin 100 => np_logspace (-8) 8 100 (j : ℕ))

/-- `grade_values = metal_content / tonnage_range` (line 206). -/
noncomputable def grade_values (metal_content : ℝ) : List ℝ :=
  tonnage_range.map (fun t => metal_content / t)

/-- The contained-metal figure of the hover label (line 207):
`metal_content / 100`. -/
noncomputable def contained_metal_label (metal_content : ℝ) : ℝ :=
  metal_content / 100

/-! ### Concrete fixtures used by counterexamples and witnesses -/

/-- A dataframe row with the given name, deposit type, tonnage and
grade. -/
def sampleRow (nm dep : String) (t g : ℚ) : SiteRow :=
  ⟨"/derived/" ++ nm, nm, "Q416", dep, none, none, t, g⟩

/-- Three records; only the pair `(0, 1)` has a cached distance. -/
def dfThree : DataFrame :=
  [(0, sampleRow "A" "Porphyry" 10 2), (1, sampleRow "B" "Porphyry" 30 1),
   (2, sampleRow "C" "Porphyry" 7 3)]

/-- A cache holding only the pair `(0, 1)` at distance 5. -/
def cacheSingle : DistCache := [((0, 1), 5)]

/-- A cache storing `(0,1) ↦ 7` and `(1,2) ↦ 5`; the reversed orders
`(1,0)` and `(2,1)` are absent. -/
def cacheAsym : DistCache := [((0, 1), 7), ((1, 2), 5)]

/-- One record of zero tonnage. -/
def dfZeroTonnage : DataFrame := [(0, sampleRow "A" "Porphyry" 0 5)]

/-- Two mergeable records. -/
def dfPair : DataFrame :=
  [(0, sampleRow "A" "Porphyry" 10 2), (1, sampleRow "B" "Porphyry" 30 1)]

/-- One `"A"`-group record and one `"Unknown"`-group record. -/
def dfWithUnknown : DataFrame :=
  [(0, sampleRow "A" "A" 2 5), (1, sampleRow "U" "Unknown" 3 1)]

/-- A cache whose only pair involves indices absent from every group. -/
def cacheForeign : DistCache := [((5, 6), 1)]

/-! ### Lemmas about the sorted index list -/

lemma mem_insertByVal (x a : (ℕ × ℕ) × ℚ) (l : DistCache) :
    a ∈ insertByVal x l ↔ a = x ∨ a ∈ l := by
  induction l with
  | nil => simp [insertByVal]
  | cons y ys ih =>
    by_cases h : x.2 < y.2
    · simp [insertByVal, h]
    · simp only [insertByVal, if_neg h, List.mem_cons, ih]
      tauto

lemma mem_sortByVal (a : (ℕ × ℕ) × ℚ) (l : DistCache) :
    a ∈ sortByVal l ↔ a ∈ l := by
  induction l with
  | nil => simp [sortByVal]
  | cons x xs ih => simp [sortByVal, mem_insertByVal, ih]

lemma mem_sorted_row_indices (df : DataFrame) (distances : DistCache) (x : ℕ) :
    x ∈ sorted_row_indices df distances ↔
      x ∈ valid_indices df ∧ ∃ kv ∈ distances, x = kv.1.1 ∨ x = kv.1.2 := by
  simp only [sorted_row_indices, List.mem_filter, List.mem_flatMap,
    decide_eq_true_eq, mem_sortByVal]
  constructor
  · rintro ⟨⟨kv, hkv, hx⟩, hv⟩
    refine ⟨hv, kv, hkv, ?_⟩
    simpa using hx
  · rintro ⟨hv, kv, hkv, hx⟩
    exact ⟨⟨kv, hkv, by simpa using hx⟩, hv⟩

lemma sorted_row_indices_valid (df : DataFrame) (distances : DistCache)
    (x : ℕ) (hx : x ∈ sorted_row_indices df distances) :
    x ∈ valid_indices df :=
  ((mem_sorted_row_indices df distances x).mp hx).1

/-! ### The inner scan: everything it adds is a validated neighbour -/

lemma innerLoop_delta (distances : DistCache) (thr : ℚ) (valid : List ℕ)
    (i : ℕ) :
    ∀ (js group processed : List ℕ),
      ∃ delta : List ℕ,
        innerLoop distances thr valid i js group processed
            = (group ++ delta, processed ++ delta) ∧
          (∀ x ∈ delta, x ∈ js ∧ x ∉ processed ∧ x ≠ i ∧ x ∈ valid ∧
            ∃ d, List.lookup (i, x) distances = some d ∧ d < thr) ∧
          delta.Nodup := by
  intro js
  induction js with
  | nil =>
    intro group processed
    exact ⟨[], by simp [innerLoop], by simp, List.nodup_nil⟩
  | cons j js ih =>
    intro group processed
    by_cases h1 : i ≠ j ∧ j ∉ processed
    · cases hl : List.lookup (i, j) distances with
      | none =>
        obtain ⟨delta, heq, hmem, hnd⟩ := ih group processed
        refine ⟨delta, ?_, ?_, hnd⟩
        · simp [innerLoop, if_pos h1, hl, heq]
        · intro x hx
          obtain ⟨hxjs, hrest⟩ := hmem x hx
          exact ⟨List.mem_cons_of_mem _ hxjs, hrest⟩
      | some d =>
        by_cases h2 : d < thr ∧ j ∈ valid
        · obtain ⟨delta, heq, hmem, hnd⟩ := ih (group ++ [j]) (processed ++ [j])
          refine ⟨j :: delta, ?_, ?_, ?_⟩
          · simp only [innerLoop, if_pos h1, hl, if_pos h2, heq]
            simp
          · intro x hx
            rcases List.mem_cons.mp hx with hx | hx
            · subst hx
              exact ⟨List.mem_cons_self _ _, h1.2, fun he => h1.1 he.symm,
                h2.2, d, hl, h2.1⟩
            · obtain ⟨hxjs, hxp, hrest⟩ := hmem x hx
              have hxp2 : x ∉ processed := fun hc => hxp (by simp [hc])
              exact ⟨List.mem_cons_of_mem _ hxjs, hxp2, hrest⟩
          · refine List.nodup_cons.mpr ⟨fun hc => ?_, hnd⟩
            have := (hmem j hc).2.1
            simp at this
        · obtain ⟨delta, heq, hmem, hnd⟩ := ih group processed
          refine ⟨delta, ?_, ?_, hnd⟩
          · simp [innerLoop, if_pos h1, hl, if_neg h2, heq]
          · intro x hx
            obtain ⟨hxjs, hrest⟩ := hmem x hx
            exact ⟨List.mem_cons_of_mem _ hxjs, hrest⟩
    · obtain ⟨delta, heq, hmem, hnd⟩ := ih group processed
      refine ⟨delta, ?_, ?_, hnd⟩
      · simp [innerLoop, if_neg h1, heq]
      · intro x hx
        obtain ⟨hxjs, hrest⟩ := hmem x hx
        exact ⟨List.mem_cons_of_mem _ hxjs, hrest⟩

/-! ### The outer loop: partition invariant -/

lemma outerLoop_cons_skip (distances : DistCache) (thr : ℚ) (valid sri : List ℕ)
    (i : ℕ) (is processed : List ℕ) (acc : List (List ℕ))
    (hip : i ∈ processed) :
    outerLoop distances thr valid sri (i :: is) processed acc
      = outerLoop distances thr valid sri is processed acc := by
  simp [outerLoop, hip]

lemma outerLoop_cons_new (distances : DistCache) (thr : ℚ) (valid sri : List ℕ)
    (i : ℕ) (is processed : List ℕ) (acc : List (List ℕ))
    (g p2 g2 : List ℕ)
    (hip : i ∉ processed)
    (heq : innerLoop distances thr valid i sri [i] (processed ++ [i]) = (g, p2))
    (hg : g.filter (fun idx => decide (idx ∈ valid)) = g2)
    (hne : g2.isEmpty = false) :
    outerLoop distances thr valid sri (i :: is) processed acc
      = outerLoop distances thr valid sri is p2 (acc ++ [g2]) := by
  simp [outerLoop, hip, heq, hg, hne]

/-- The property every produced cluster satisfies: it is a seed followed
by the members merged into it, each justified by a cache lookup keyed
`(seed, member)` returning a value under the threshold. -/
def ClusterShape (distances : DistCache) (thr : ℚ) (c : List ℕ) : Prop :=
  ∃ i delta, c = i :: delta ∧ ∀ j ∈ delta,
    j ≠ i ∧ ∃ d, List.lookup (i, j) distances = some d ∧ d < thr

lemma outerLoop_spec (distances : DistCache) (thr : ℚ) (valid sri : List ℕ) :
    ∀ (is processed : List ℕ) (acc : List (List ℕ)),
      (∀ x ∈ is, x ∈ valid) →
      acc.flatten = processed → processed.Nodup →
      (∀ c ∈ acc, ClusterShape distances thr c) →
      ((outerLoop distances thr valid sri is processed acc).1.flatten
          = (outerLoop distances thr valid sri is processed acc).2) ∧
        (outerLoop distances thr valid sri is processed acc).2.Nodup ∧
        (∀ x ∈ (outerLoop distances thr valid sri is processed acc).2,
          x ∈ processed ∨ x ∈ is ∨ x ∈ sri) ∧
        (∀ x ∈ processed,
          x ∈ (outerLoop distances thr valid sri is processed acc).2) ∧
        (∀ x ∈ is, x ∈ (outerLoop distances thr valid sri is processed acc).2) ∧
        (∀ c ∈ (outerLoop distances thr valid sri is processed acc).1,
          ClusterShape distances thr c) := by
  intro is
  induction is with
  | nil =>
    intro processed acc _ hacc hnd haccP
    refine ⟨by simpa [outerLoop] using hacc, by simpa [outerLoop] using hnd,
      ?_, ?_, by simp, by simpa [outerLoop] using haccP⟩
    · intro x hx
      exact Or.inl (by simpa [outerLoop] using hx)
    · intro x hx
      simpa [outerLoop] using hx
  | cons i is ih =>
    intro processed acc his hacc hnd haccP
    by_cases hip : i ∈ processed
    · rw [outerLoop_cons_skip distances thr valid sri i is processed acc hip]
      obtain ⟨c1, c2, c3, c4, c5, c6⟩ :=
        ih processed acc (fun x hx => his x (List.mem_cons_of_mem _ hx))
          hacc hnd haccP
      refine ⟨c1, c2, ?_, c4, ?_, c6⟩
      · intro x hx
        rcases c3 x hx with h | h | h
        · exact Or.inl h
        · exact Or.inr (Or.inl (List.mem_cons_of_mem _ h))
        · exact Or.inr (Or.inr h)
      · intro x hx
        rcases List.mem_cons.mp hx with h | h
        · exact h ▸ c4 i hip
        · exact c5 x h
    · obtain ⟨delta, heq, hdel, hdnd⟩ :=
        innerLoop_delta distances thr valid i sri [i] (processed ++ [i])
      have hival : i ∈ valid := his i (List.mem_cons_self _ _)
      have hfilter : ([i] ++ delta).filter (fun idx => decide (idx ∈ valid))
          = i :: delta := by
        have hself : ([i] ++ delta).filter (fun idx => decide (idx ∈ valid))
            = [i] ++ delta := by
          rw [List.filter_eq_self]
          intro a ha
          rcases List.mem_append.mp ha with h | h
          · simp only [List.mem_singleton] at h
            simp [h, hival]
          · simp [(hdel a h).2.2.2.1]
        simpa using hself
      have hstep := outerLoop_cons_new distances thr valid sri i is processed acc
        ([i] ++ delta) ((processed ++ [i]) ++ delta) (i :: delta) hip
        (by simpa using heq) hfilter (by simp)
      rw [hstep]
      have hnd2 : ((processed ++ [i]) ++ delta).Nodup := by
        rw [List.nodup_append]
        refine ⟨?_, hdnd, ?_⟩
        · rw [List.nodup_append]
          refine ⟨hnd, List.nodup_singleton _, ?_⟩
          intro a ha
          simp only [List.mem_singleton]
          exact fun he => hip (he ▸ ha)
        · intro a ha hd
          exact (hdel a hd).2.1 ha
      have hacc2 : (acc ++ [i :: delta]).flatten = (processed ++ [i]) ++ delta := by
        simp [List.flatten_append, hacc]
      have haccP2 : ∀ c ∈ acc ++ [i :: delta], ClusterShape distances thr c := by
        intro c hc
        rcases List.mem_append.mp hc with h | h
        · exact haccP c h
        · simp only [List.mem_singleton] at h
          subst h
          exact ⟨i, delta, rfl, fun j hj => ⟨(hdel j hj).2.2.1, (hdel j hj).2.2.2.2⟩⟩
      obtain ⟨c1, c2, c3, c4, c5, c6⟩ :=
        ih ((processed ++ [i]) ++ delta) (acc ++ [i :: delta])
          (fun x hx => his x (List.mem_cons_of_mem _ hx)) hacc2 hnd2 haccP2
      refine ⟨c1, c2, ?_, ?_, ?_, c6⟩
      · intro x hx
        rcases c3 x hx with h | h | h
        · rcases List.mem_append.mp h with h | h
          · rcases List.mem_append.mp h with h | h
            · exact Or.inl h
            · simp only [List.mem_singleton] at h
              exact Or.inr (Or.inl (h ▸ List.mem_cons_self _ _))
          · exact Or.inr (Or.inr ((hdel x h).1))
        · exact Or.inr (Or.inl (List.mem_cons_of_mem _ h))
        · exact Or.inr (Or.inr h)
      · intro x hx
        exact c4 x (List.mem_append.mpr (Or.inl (List.mem_append.mpr (Or.inl hx))))
      · intro x hx
        rcases List.mem_cons.mp hx with h | h
        · subst h
          exact c4 x (List.mem_append.mpr (Or.inl (List.mem_append.mpr
            (Or.inr (List.mem_singleton.mpr rfl)))))
        · exact c5 x h

/-- The clusters of one aggregation run cover, without repetition,
exactly the indices of the sorted row list, and every cluster is a seed
plus lookup-justified members. -/
lemma greedyClusters_spec (df : DataFrame) (distances : DistCache) (thr : ℚ) :
    (greedyClusters df distances thr).flatten.Nodup ∧
      (∀ x, x ∈ (greedyClusters df distances thr).flatten ↔
        x ∈ sorted_row_indices df distances) ∧
      (∀ c ∈ greedyClusters df distances thr, ClusterShape distances thr c) := by
  obtain ⟨c1, c2, c3, _, c5, c6⟩ :=
    outerLoop_spec distances thr (valid_indices df)
      (sorted_row_indices df distances) (sorted_row_indices df distances) [] []
      (fun x hx => sorted_row_indices_valid df distances x hx) rfl
      List.nodup_nil (by simp)
  refine ⟨?_, ?_, c6⟩
  · rw [greedyClusters, c1]
    exact c2
  · intro x
    rw [greedyClusters, c1]
    constructor
    · intro hx
      rcases c3 x hx with h | h | h
      · simp at h
      · exact h
      · exact h
    · exact c5 x

/-! ### Rows: an aborting cluster aborts the whole aggregation -/

lemma buildRows_none (df : DataFrame) (cs : List (List ℕ)) (c : List ℕ)
    (hc : c ∈ cs) (hrow : mkRow df c = none) : buildRows df cs = none := by
  induction cs with
  | nil => simp at hc
  | cons c0 cs ih =>
    rcases List.mem_cons.mp hc with h | h
    · subst h
      simp [buildRows, hrow]
    · cases h0 : mkRow df c0 with
      | none => simp [buildRows, h0]
      | some row => simp [buildRows, h0, ih h]

lemma mkRow_zero_weights (df : DataFrame) (c : List ℕ) (recs : List SiteRow)
    (hlk : c.mapM (fun idx => List.lookup idx df) = some recs)
    (hsum : (recs.map (fun r => r.total_tonnage)).sum = 0) :
    mkRow df c = none := by
  have hnp : npAverage (recs.map (fun r => r.total_grade))
      (recs.map (fun r => r.total_tonnage)) = none := by
    simp [npAverage, hsum]
  unfold mkRow
  rw [hlk, Option.some_bind, hnp]

/-! ### The per-group loop of `get_gt_model` -/

lemma aggLoop_zero (df : DataFrame) (distances : DistCache) :
    ∀ labels : List String,
      aggLoop df distances 0 labels
        = some (labels.map (fun d =>
            (d, (df.filter (fun r => decide (r.2.top1_deposit_name = d))).map
              Prod.snd))) := by
  intro labels
  induction labels with
  | nil => simp [aggLoop]
  | cons d ds ih => simp [aggLoop, ih]

lemma aggLoop_skips_unknown (df : DataFrame) (distances : DistCache) (pv : ℚ)
    (hpv : pv ≠ 0) :
    ∀ (labels : List String) (out : List (String × List SiteRow)),
      aggLoop df distances pv labels = some out →
      out.map Prod.fst = labels.filter (fun l => decide (l ≠ "Unknown")) := by
  intro labels
  induction labels with
  | nil =>
    intro out hout
    simp only [aggLoop] at hout
    cases hout
    simp
  | cons d ds ih =>
    intro out hout
    by_cases hd : d = "Unknown"
    · subst hd
      rw [show aggLoop df distances pv ("Unknown" :: ds)
            = aggLoop df distances pv ds from by simp [aggLoop, hpv]] at hout
      simp [List.filter_cons, ih out hout]
    · rw [show aggLoop df distances pv (d :: ds)
          = match greedy_weighted_avg_aggregation
              (df.filter (fun r => decide (r.2.top1_deposit_name = d)))
              distances pv with
            | none => none
            | some rows =>
              (aggLoop df distances pv ds).map (fun rest => (d, rows) :: rest)
          from by simp [aggLoop, hpv, hd]] at hout
      cases hg : greedy_weighted_avg_aggregation
          (df.filter (fun r => decide (r.2.top1_deposit_name = d)))
          distances pv with
      | none => rw [hg] at hout; cases hout
      | some rows =>
        rw [hg] at hout
        obtain ⟨rest, hrest, hcons⟩ := Option.map_eq_some'.mp hout
        subst hcons
        simp [List.filter_cons, hd, ih rest hrest]

lemma ensureUnknownLast_getLast (labels : List String)
    (h : "Unknown" ∈ labels) :
    (ensureUnknownLast labels).getLast? = some "Unknown" := by
  rw [ensureUnknownLast, if_pos h]
  exact List.getLast?_concat _

/-! ### String lemmas for the concatenation fields and the CSV clean-up -/

lemma string_data_inj (a b : String) (h : a.data = b.data) : a = b := by
  calc a = ⟨a.data⟩ := rfl
  _ = ⟨b.data⟩ := by rw [h]
  _ = b := rfl

lemma data_append (a b : String) : (a ++ b).data = a.data ++ b.data := rfl

lemma replaceColons_cons_nomatch (rep : List Char) (c : Char) (s : List Char)
    (hc : c ≠ ':') : replaceColons rep (c :: s) = c :: replaceColons rep s := by
  cases s with
  | nil => rfl
  | cons c2 rest => simp [replaceColons, hc]

lemma replaceColons_colons (rep : List Char) (s : List Char) :
    replaceColons rep (':' :: ':' :: s) = rep ++ replaceColons rep s := by
  simp [replaceColons]

lemma replaceColons_append_colonFree (rep : List Char) (u v : List Char)
    (hu : ∀ c ∈ u, c ≠ ':') :
    replaceColons rep (u ++ v) = u ++ replaceColons rep v := by
  induction u with
  | nil => simp
  | cons c u ih =>
    rw [List.cons_append,
      replaceColons_cons_nomatch rep c (u ++ v) (hu c (List.mem_cons_self _ _)),
      ih (fun x hx => hu x (List.mem_cons_of_mem _ hx)), List.cons_append]

lemma replaceColons_colonFree (rep : List Char) (u : List Char)
    (hu : ∀ c ∈ u, c ≠ ':') : replaceColons rep u = u := by
  have h := replaceColons_append_colonFree rep u [] hu
  simpa [replaceColons] using h

lemma countColons_cons_nomatch (c : Char) (s : List Char) (hc : c ≠ ':') :
    countColons (c :: s) = countColons s := by
  cases s with
  | nil => rfl
  | cons c2 rest => simp [countColons, hc]

lemma countColons_colons (s : List Char) :
    countColons (':' :: ':' :: s) = 1 + countColons s := by
  simp [countColons]

lemma countColons_append_colonFree (u v : List Char)
    (hu : ∀ c ∈ u, c ≠ ':') : countColons (u ++ v) = countColons v := by
  induction u with
  | nil => simp
  | cons c u ih =>
    rw [List.cons_append,
      countColons_cons_nomatch c (u ++ v) (hu c (List.mem_cons_self _ _)),
      ih (fun x hx => hu x (List.mem_cons_of_mem _ hx))]

lemma replaceColons_joinSep (names : List String)
    (hfree : ∀ s ∈ names, ∀ c ∈ s.data, c ≠ ':') :
    replaceColons (String.data ",") (joinSep ":: " names).data
      = (joinSep ", " names).data := by
  induction names with
  | nil => rfl
  | cons n rest ih =>
    cases rest with
    | nil =>
      exact replaceColons_colonFree _ n.data (hfree n (List.mem_cons_self _ _))
    | cons m rest2 =>
      have hJ : (joinSep ":: " (n :: m :: rest2)).data
          = n.data ++ (':' :: ':' :: ' ' :: (joinSep ":: " (m :: rest2)).data) := by
        rw [show joinSep ":: " (n :: m :: rest2)
            = n ++ ":: " ++ joinSep ":: " (m :: rest2) from rfl,
          data_append, data_append, List.append_assoc]
        rfl
      have hJ2 : (joinSep ", " (n :: m :: rest2)).data
          = n.data ++ (',' :: ' ' :: (joinSep ", " (m :: rest2)).data) := by
        rw [show joinSep ", " (n :: m :: rest2)
            = n ++ ", " ++ joinSep ", " (m :: rest2) from rfl,
          data_append, data_append, List.append_assoc]
        rfl
      rw [hJ, hJ2,
        replaceColons_append_colonFree _ n.data _ (hfree n (List.mem_cons_self _ _)),
        replaceColons_colons,
        replaceColons_cons_nomatch _ ' ' _ (by decide),
        ih (fun s hs => hfree s (List.mem_cons_of_mem _ hs))]
      rfl

lemma countColons_joinSep (names : List String)
    (hfree : ∀ s ∈ names, ∀ c ∈ s.data, c ≠ ':') :
    countColons (joinSep ":: " names).data = names.length - 1 := by
  induction names with
  | nil => rfl
  | cons n rest ih =>
    cases rest with
    | nil =>
      have h := countColons_append_colonFree n.data []
        (hfree n (List.mem_cons_self _ _))
      simpa using h
    | cons m rest2 =>
      have hJ : (joinSep ":: " (n :: m :: rest2)).data
          = n.data ++ (':' :: ':' :: ' ' :: (joinSep ":: " (m :: rest2)).data) := by
        rw [show joinSep ":: " (n :: m :: rest2)
            = n ++ ":: " ++ joinSep ":: " (m :: rest2) from rfl,
          data_append, data_append, List.append_assoc]
        rfl
      rw [hJ, countColons_append_colonFree n.data _ (hfree n (List.mem_cons_self _ _)),
        countColons_colons, countColons_cons_nomatch ' ' _ (by decide),
        ih (fun s hs => hfree s (List.mem_cons_of_mem _ hs))]
      simp [List.length_cons]
      omega

lemma combineField_data_of_two (names : List String) (h : 1 < names.length) :
    (combineField names).data
      = ':' :: ':' :: ' ' :: (joinSep ":: " names).data := by
  rw [combineField, if_pos h]
  rfl

lemma containsSub_of_startsWith (pat : List Char) (s : List Char)
    (h : startsWith pat s = true) : containsSub pat s = true := by
  cases s with
  | nil => simpa [containsSub] using h
  | cons c rest => simp [containsSub, h]

lemma falsyOpt_eq_false_iff (x : Option ℚ) :
    falsyOpt x = false ↔ ∃ q, x = some q ∧ q ≠ 0 := by
  cases x with
  | none => simp [falsyOpt]
  | some q => simp [falsyOpt]

/-! ## The claims -/

/-- Claim C1, counterexample: with records 0, 1, 2 in one group, a
distance cache holding only the pair (0, 1) at distance 5 and threshold
1 (> 0), the aggregation produces the clusters [0] and [1] only: record
2, which has no cache entry, appears in no cluster at all, so the
multiset union of member-index sets is not the full record-index set and
index 2 does not form a singleton cluster. -/
theorem claim1_counterexample :
    (0 : ℚ) < 1 ∧
      2 ∈ valid_indices dfThree ∧
      greedyClusters dfThree cacheSingle 1 = [[0], [1]] ∧
      2 ∉ (greedyClusters dfThree cacheSingle 1).flatten := by
  exact ⟨by decide, by decide, by decide, by decide⟩

/-- Claim C1 (amended): for every group, distance cache and threshold,
the clusters of the greedy aggregation partition — without loss or
duplication — not the full record-index set but the set of record
indices that occur in at least one distance-cache key: the flattened
member lists are duplicate-free and contain an index if and only if it
is a dataframe index appearing in some cache pair.  A record whose index
occurs in no cache entry is dropped entirely (it does not appear as a
singleton cluster). -/
theorem claim1_partition_corrected (df : DataFrame) (distances : DistCache)
    (thr : ℚ) :
    (greedyClusters df distances thr).flatten.Nodup ∧
      ∀ x, x ∈ (greedyClusters df distances thr).flatten ↔
        (x ∈ valid_indices df ∧ ∃ kv ∈ distances, x = kv.1.1 ∨ x = kv.1.2) := by
  obtain ⟨h1, h2, _⟩ := greedyClusters_spec df distances thr
  exact ⟨h1, fun x => (h2 x).trans (mem_sorted_row_indices df distances x)⟩

/-- Claim C2, counterexample: with threshold 1 (> 0) and a dataframe
holding one "A"-group record and one "Unknown"-group record, the
produced dataset is exactly `[("A", [])]`: the "Unknown" group
contributes no entry at all — its records are not passed through as
singleton clusters and no trace is rendered or ranked for it.  (The
computation does return successfully, so the "no error" part holds.) -/
theorem claim2_counterexample :
    (1, sampleRow "U" "Unknown" 3 1) ∈ dfWithUnknown ∧
      get_gt_model_core dfWithUnknown cacheForeign ["A", "Unknown"] 1
        = some [("A", [])] := by
  exact ⟨by decide, by decide⟩

/-- Claim C2 (amended): when aggregation is requested with a non-zero
threshold and the "Unknown" group is present, the aggregator silently
skips that group entirely: whenever the loop returns output, the labels
appearing in it are exactly the non-"Unknown" labels in order — the
"Unknown" records are dropped from the output dataset, not passed
through as singletons, and no trace is produced for them; no error
arises from the skip itself.  (The "ranked last" part of the ranking
does hold: `ensureUnknownLast` puts "Unknown" at the end of the label
list when present.) -/
theorem claim2_unknown_skip_corrected :
    (∀ (df : DataFrame) (distances : DistCache) (pv : ℚ)
        (labels : List String) (out : List (String × List SiteRow)),
      pv ≠ 0 → aggLoop df distances pv labels = some out →
      out.map Prod.fst = labels.filter (fun l => decide (l ≠ "Unknown"))) ∧
    (∀ labels : List String, "Unknown" ∈ labels →
      (ensureUnknownLast labels).getLast? = some "Unknown") :=
  ⟨fun df distances pv labels out hpv hout =>
     aggLoop_skips_unknown df distances pv hpv labels out hout,
   fun labels h => ensureUnknownLast_getLast labels h⟩

/-- Claim C2, witness for the amended claim at a concrete input. -/
theorem claim2_witness :
    (1 : ℚ) ≠ 0 ∧
      aggLoop dfWithUnknown cacheForeign 1 ["A", "Unknown"] = some [("A", [])] ∧
      ([("A", ([] : List SiteRow))].map Prod.fst
        = ["A", "Unknown"].filter (fun l => decide (l ≠ "Unknown"))) ∧
      "Unknown" ∈ ["A", "Unknown"] ∧
      (ensureUnknownLast ["A", "Unknown"]).getLast? = some "Unknown" :=
  ⟨by decide, by decide,
   claim2_unknown_skip_corrected.1 dfWithUnknown cacheForeign 1 ["A", "Unknown"]
     [("A", [])] (by decide) (by decide),
   by decide,
   claim2_unknown_skip_corrected.2 ["A", "Unknown"] (by decide)⟩

/-- Claim C3, counterexample: a group consisting of the single record of
tonnage 0 yields the cluster [0]; computing that cluster's grade makes
`np.average` raise `ZeroDivisionError` (modelled `none`), so the whole
aggregation aborts — there is no local fallback to an unweighted mean
and no output is produced for any cluster. -/
theorem claim3_counterexample :
    greedyClusters dfZeroTonnage cacheSingle 1 = [[0]] ∧
      (sampleRow "A" "Porphyry" 0 5).total_tonnage = 0 ∧
      greedy_weighted_avg_aggregation dfZeroTonnage cacheSingle 1 = none := by
  refine ⟨by decide, by decide, ?_⟩
  exact buildRows_none dfZeroTonnage _ [0] (by decide)
    (mkRow_zero_weights dfZeroTonnage [0] [sampleRow "A" "Porphyry" 0 5]
      (by decide) (by simp [sampleRow]))

/-- Claim C3 (amended): whenever any produced cluster's member tonnages
sum to zero, the aggregation of that group returns no output at all
(`np.average` raises and the exception is not handled): there is no
fallback to an unweighted arithmetic mean, and since the exception
escapes `get_gt_model`, the request aborts instead of being resolved
locally. -/
theorem claim3_zero_weight_corrected (df : DataFrame) (distances : DistCache)
    (thr : ℚ) (c : List ℕ) (recs : List SiteRow)
    (hc : c ∈ greedyClusters df distances thr)
    (hlk : c.mapM (fun idx => List.lookup idx df) = some recs)
    (hsum : (recs.map (fun r => r.total_tonnage)).sum = 0) :
    greedy_weighted_avg_aggregation df distances thr = none :=
  buildRows_none df _ c hc (mkRow_zero_weights df c recs hlk hsum)

/-- Claim C3, witness for the amended claim at a concrete input. -/
theorem claim3_witness :
    [0] ∈ greedyClusters dfZeroTonnage cacheSingle 1 ∧
      ([0] : List ℕ).mapM (fun idx => List.lookup idx dfZeroTonnage)
        = some [sampleRow "A" "Porphyry" 0 5] ∧
      ([sampleRow "A" "Porphyry" 0 5].map (fun r => r.total_tonnage)).sum = 0 ∧
      greedy_weighted_avg_aggregation dfZeroTonnage cacheSingle 1 = none :=
  ⟨by decide, by decide, by simp [sampleRow],
   claim3_zero_weight_corrected dfZeroTonnage cacheSingle 1 [0]
     [sampleRow "A" "Porphyry" 0 5] (by decide) (by decide)
     (by simp [sampleRow])⟩

/-- Claim C4, counterexample: the cluster of the two members "A" and "B"
produces the field `":: A:: B"` — the separator and the leading mark are
the three-character string `":: "` (colon, colon, space), not the
two-character `"::"` the claim states: the field differs from
`"::" ++ "A" ++ "::" ++ "B"` = `"::A::B"`. -/
theorem claim4_counterexample :
    combineField ["A", "B"] = ":: A:: B" ∧
      "::" ++ joinSep "::" ["A", "B"] = "::A::B" ∧
      combineField ["A", "B"] ≠ "::" ++ joinSep "::" ["A", "B"] := by
  exact ⟨by decide, by decide, by decide⟩

/-- Claim C4 (amended): the `ms_name` and `ms` fields concatenate the
member values in cluster-build order joined with the three-character
separator `":: "` (not the two-character `"::"`); a cluster of more than
one member carries a leading `":: "`, a single-member cluster is the
bare value.  Counting occurrences of the two-character substring `"::"`
(for members containing no colon) still gives member-count occurrences:
the leading one plus member-count minus one internal separators. -/
theorem claim4_separator_corrected :
    (∀ names : List String, 1 < names.length →
      combineField names = ":: " ++ joinSep ":: " names) ∧
    (∀ s : String, combineField [s] = s) ∧
    (∀ names : List String, 1 < names.length →
      (∀ s ∈ names, ∀ c ∈ s.data, c ≠ ':') →
      countColons (combineField names).data = names.length) := by
  refine ⟨fun names h => by rw [combineField, if_pos h], fun s => rfl, ?_⟩
  intro names h hfree
  rw [combineField_data_of_two names h, countColons_colons,
    countColons_cons_nomatch ' ' _ (by decide), countColons_joinSep names hfree]
  omega

/-- Claim C4, witness for the amended claim at a concrete input. -/
theorem claim4_witness :
    1 < (["A", "B"] : List String).length ∧
      combineField ["A", "B"] = ":: " ++ joinSep ":: " ["A", "B"] ∧
      countColons (combineField ["A", "B"]).data = 2 :=
  ⟨by decide, claim4_separator_corrected.1 ["A", "B"] (by decide),
   claim4_separator_corrected.2.2 ["A", "B"] (by decide) (by decide)⟩

/-- Claim C5, counterexample: the cache stores (0,1) ↦ 7 and (1,2) ↦ 5;
looking up (0,1) and (1,0) gives different results (`some 7` vs
`none`), and with threshold 10 the aggregation produces [[1, 2], [0]]:
although the stored distance 7 between 0 and 1 is below the threshold,
record 0 is not merged into the cluster seeded at 1, because the merge
consults only the `(seed, candidate)` = (1,0) ordering, which is not
stored.  Lookups are therefore not order-symmetric, and a distance
stored under only one ordering does not always enable the merge. -/
theorem claim5_counterexample :
    List.lookup (0, 1) cacheAsym = some 7 ∧
      List.lookup (1, 0) cacheAsym = none ∧
      (7 : ℚ) < 10 ∧
      greedyClusters dfThree cacheAsym 10 = [[1, 2], [0]] := by
  exact ⟨by decide, by decide, by decide, by decide⟩

/-- Claim C5 (amended): the distance lookup during aggregation is
directional: scanning candidates for the cluster seeded at `i`, only the
key `(i, j)` is consulted; when `(i, j)` is absent from the cache, `j`
is never added to the cluster, even if `(j, i)` is stored. -/
theorem claim5_lookup_corrected (distances : DistCache) (thr : ℚ)
    (valid : List ℕ) (i : ℕ) (js group processed : List ℕ) (j : ℕ)
    (hnone : List.lookup (i, j) distances = none) (hj : j ∉ group) :
    j ∉ (innerLoop distances thr valid i js group processed).1 := by
  obtain ⟨delta, heq, hdel, _⟩ :=
    innerLoop_delta distances thr valid i js group processed
  rw [heq]
  intro hmem
  rcases List.mem_append.mp hmem with h | h
  · exact hj h
  · obtain ⟨d, hd, _⟩ := (hdel j h).2.2.2.2
    rw [hnone] at hd
    cases hd

/-- Claim C5, witness for the amended claim at a concrete input. -/
theorem claim5_witness :
    List.lookup (0, 1) ([((1, 0), 5)] : DistCache) = none ∧
      (1 : ℕ) ∉ ([0] : List ℕ) ∧
      1 ∉ (innerLoop [((1, 0), 5)] 10 [0, 1] 0 [1] [0] [0]).1 :=
  ⟨by decide, by decide,
   claim5_lookup_corrected [((1, 0), 5)] 10 [0, 1] 0 [1] [0] [0] 1
     (by decide) (by decide)⟩

/-- Claim C6 (confirmed): with proximity value 0, the per-group loop of
`get_gt_model` is the identity on every group: for each ranked label the
output rows are exactly the group's records, unchanged and in order —
every record is its own singleton cluster, nothing is merged, and the
number of output rows of a group equals its number of records. -/
theorem claim6_threshold_zero_identity (df : DataFrame)
    (distances : DistCache) (labels : List String) :
    get_gt_model_core df distances labels 0
      = some ((ensureUnknownLast labels).map (fun d =>
          (d, (df.filter (fun r => decide (r.2.top1_deposit_name = d))).map
            Prod.snd))) :=
  aggLoop_zero df distances (ensureUnknownLast labels)

/-- Claim C7 (confirmed): every produced cluster is its seed followed by
the members merged into it, and a record `j` is merged into the cluster
seeded at `i` only if the distance cache lookup of `(i, j)` yields a
known (non-`None`) value strictly below the threshold — an absent or
`None` entry never causes a merge, and a distance equal to the threshold
does not merge. -/
theorem claim7_merge_only_if (df : DataFrame) (distances : DistCache)
    (thr : ℚ) (c : List ℕ) (hc : c ∈ greedyClusters df distances thr) :
    ∃ i delta, c = i :: delta ∧ ∀ j ∈ delta,
      j ≠ i ∧ ∃ d, List.lookup (i, j) distances = some d ∧ d < thr :=
  (greedyClusters_spec df distances thr).2.2 c hc

/-- Claim C7, witness at a concrete input. -/
theorem claim7_witness :
    [0, 1] ∈ greedyClusters dfPair cacheSingle 10 ∧
      ∃ i delta, ([0, 1] : List ℕ) = i :: delta ∧ ∀ j ∈ delta,
        j ≠ i ∧ ∃ d, List.lookup (i, j) cacheSingle = some d ∧ d < 10 :=
  ⟨by decide, claim7_merge_only_if dfPair cacheSingle 10 [0, 1] (by decide)⟩

/-- Claim C8, counterexample: on the two-member field `":: A:: B"`, the
code's clean-up gives `" A, B"` while the transformation the claim
describes (strip two leading characters, rewrite every internal `"::"`
to `", "`) gives `" A,  B"` — the code rewrites `"::"` to `","` (single
comma), and the displayed `", "` separation arises only because the
stored separator is `":: "` with a trailing space. -/
theorem claim8_counterexample :
    csvClean ":: A:: B" = " A, B" ∧
      specCsvClean ":: A:: B" = " A,  B" ∧
      csvClean ":: A:: B" ≠ specCsvClean ":: A:: B" := by
  exact ⟨by decide, by decide, by decide⟩

/-- Claim C8 (amended): on every multi-member concatenation field built
by the aggregator (members without colons), the CSV export strips the
two leading characters — leaving the space of the `":: "` mark — and
rewrites each `"::"` to `","`, so the result is a leading space followed
by the member values separated by `", "`.  -/
theorem claim8_csv_corrected (names : List String) (h : 1 < names.length)
    (hfree : ∀ s ∈ names, ∀ c ∈ s.data, c ≠ ':') :
    csvClean (combineField names) = " " ++ joinSep ", " names := by
  have hdata := combineField_data_of_two names h
  have hcont : containsSub (String.data "::") (combineField names).data
      = true := by
    rw [hdata]
    exact containsSub_of_startsWith _ _ rfl
  rw [csvClean, if_pos hcont]
  apply string_data_inj
  show replaceColons (String.data ",") ((combineField names).data.drop 2)
      = (" " ++ joinSep ", " names).data
  rw [hdata]
  show replaceColons (String.data ",") (' ' :: (joinSep ":: " names).data)
      = (" " ++ joinSep ", " names).data
  rw [replaceColons_cons_nomatch _ ' ' _ (by decide),
    replaceColons_joinSep names hfree]
  rfl

/-- Claim C8, witness for the amended claim at a concrete input. -/
theorem claim8_witness :
    1 < (["A", "B"] : List String).length ∧
      (∀ s ∈ (["A", "B"] : List String), ∀ c ∈ s.data, c ≠ ':') ∧
      csvClean (combineField ["A", "B"]) = " " ++ joinSep ", " ["A", "B"] :=
  ⟨by decide, by decide, claim8_csv_corrected ["A", "B"] (by decide) (by decide)⟩

/-- Claim C9 (confirmed): the guide-curve family has exactly 20
metal-content levels, the `i`-th being `10 ^ (-9 + i)` (log-spaced with
endpoints `10 ^ -9` and `10 ^ 10`); each level yields 100 grade points
over 100 tonnage values log-spaced from `10 ^ -8` to `10 ^ 8` with grade
`L / tonnage`, so every generated (tonnage, grade) pair multiplies back
to exactly `L`; and the curve label displays `L / 100` as the
contained-metal value. -/
theorem claim9_guide_curves :
    metal_contents.length = 20 ∧
      tonnage_range.length = 100 ∧
      (∀ L : ℝ, (grade_values L).length = 100) ∧
      (∀ i : ℕ, np_logspace (-9) 10 20 i = (10 : ℝ) ^ ((-9 : ℝ) + (i : ℝ))) ∧
      np_logspace (-9) 10 20 0 = (10 : ℝ) ^ (-9 : ℝ) ∧
      np_logspace (-9) 10 20 19 = (10 : ℝ) ^ (10 : ℝ) ∧
      np_logspace (-8) 8 100 0 = (10 : ℝ) ^ (-8 : ℝ) ∧
      np_logspace (-8) 8 100 99 = (10 : ℝ) ^ (8 : ℝ) ∧
      (∀ (L : ℝ) (j : ℕ),
        np_logspace (-8) 8 100 j * (L / np_logspace (-8) 8 100 j) = L) ∧
      (∀ L : ℝ, contained_metal_label L = L / 100) := by
  have hexp : ∀ i : ℕ, np_logspace (-9) 10 20 i
      = (10 : ℝ) ^ ((-9 : ℝ) + (i : ℝ)) := by
    intro i
    rw [np_logspace]
    congr 1
    have h19 : ((20 : ℕ) : ℝ) - 1 = 19 := by norm_num
    rw [h19]
    field_simp
    ring
  have hpos : ∀ j : ℕ, (0 : ℝ) < np_logspace (-8) 8 100 j := by
    intro j
    rw [np_logspace]
    exact Real.rpow_pos_of_pos (by norm_num) _
  refine ⟨by rw [metal_contents]; exact List.length_ofFn _,
    by rw [tonnage_range]; exact List.length_ofFn _,
    fun L => by
      rw [grade_values, List.length_map, tonnage_range]
      exact List.length_ofFn _,
    hexp, ?_, ?_, ?_, ?_, ?_, fun L => rfl⟩
  · rw [hexp 0]
    norm_num
  · rw [hexp 19]
    norm_num
  · rw [np_logspace]
    congr 1
    norm_num
  · rw [np_logspace]
    congr 1
    norm_num
  · intro L j
    rw [mul_comm, div_mul_cancel₀]
    exact (hpos j).ne'

/-- The deposit-type reference dictionary used by the C10 witness. -/
def depositCacheFix : String → Option DepositDetails :=
  fun s => if s = "d1" then some ⟨"Porphyry copper", "grp", "env"⟩ else none

/-- A raw site whose grade-tonnage block lacks the `total_grade` key. -/
def rawNoGT : RawSite := ⟨"site1", "Site One", [⟨"d1", 1, "src"⟩], ⟨"Q416", none⟩⟩

/-- The cleaned record of `rawNoGT`. -/
def rowNoGT : CleanedRow :=
  ⟨"/derived/site1", "Site One", "Q416", "Unknown", none, none, none⟩

/-- Claim C10 (confirmed): every record produced by `clean_and_fix`
whose total tonnage or total grade is absent, null, or zero has
`top1_deposit_name` forced to "Unknown"; consequently every cleaned
record outside the "Unknown" group — the only kind of group the
aggregator processes — carries a present, non-zero total grade and total
tonnage. -/
theorem claim10_unknown_invariant
    (depositCache : String → Option DepositDetails) (raws : List RawSite)
    (r : CleanedRow) (hr : r ∈ clean_and_fix depositCache raws) :
    ((r.total_tonnage = none ∨ r.total_tonnage = some 0
        ∨ r.total_grade = none ∨ r.total_grade = some 0) →
      r.top1_deposit_name = "Unknown") ∧
    (r.top1_deposit_name ≠ "Unknown" →
      ∃ g t, r.total_grade = some g ∧ r.total_tonnage = some t ∧
        g ≠ 0 ∧ t ≠ 0) := by
  obtain ⟨raw, _, hclean⟩ := List.mem_filterMap.mp hr
  rw [cleanRecord] at hclean
  by_cases he : raw.deposit_types.isEmpty
  · rw [if_pos he] at hclean
    cases hclean
  · rw [if_neg he] at hclean
    cases hmax : maxByConfidence raw.deposit_types with
    | none => rw [hmax, Option.none_bind] at hclean; cases hclean
    | some top =>
      rw [hmax, Option.some_bind] at hclean
      cases hdd : depositCache top.id with
      | none => rw [hdd, Option.none_bind] at hclean; cases hclean
      | some dd =>
        rw [hdd, Option.some_bind] at hclean
        injection hclean with hX
        subst hX
        constructor
        · intro hdisj
          dsimp only at hdisj ⊢
          rcases hdisj with h | h | h | h <;> rw [h] <;> simp [falsyOpt]
        · intro hne
          dsimp only at hne ⊢
          by_cases hbt : falsyOpt (raw.gt0.vals.bind fun v => v.total_tonnage)
          · rw [if_pos (by simp [hbt])] at hne
            exact absurd rfl hne
          · by_cases hbg : falsyOpt (raw.gt0.vals.bind fun v => v.total_grade)
            · rw [if_pos (by simp [hbg])] at hne
              exact absurd rfl hne
            · obtain ⟨t0, ht0, ht0ne⟩ := (falsyOpt_eq_false_iff _).mp
                (Bool.eq_false_iff.mpr hbt)
              obtain ⟨g0, hg0, hg0ne⟩ := (falsyOpt_eq_false_iff _).mp
                (Bool.eq_false_iff.mpr hbg)
              exact ⟨g0, t0, hg0, ht0, hg0ne, ht0ne⟩

/-- Claim C10, witness at a concrete input: a site with no grade-tonnage
block is cleaned into an "Unknown"-group record. -/
theorem claim10_witness :
    rowNoGT ∈ clean_and_fix depositCacheFix [rawNoGT] ∧
      ((rowNoGT.total_tonnage = none ∨ rowNoGT.total_tonnage = some 0
          ∨ rowNoGT.total_grade = none ∨ rowNoGT.total_grade = some 0) →
        rowNoGT.top1_deposit_name = "Unknown") ∧
      (rowNoGT.top1_deposit_name ≠ "Unknown" →
        ∃ g t, rowNoGT.total_grade = some g ∧ rowNoGT.total_tonnage = some t ∧
          g ≠ 0 ∧ t ≠ 0) := by
  have h := claim10_unknown_invariant depositCacheFix [rawNoGT] rowNoGT
    (by decide)
  exact ⟨by decide, h.1, h.2⟩

end MinmodDashboard
